import Mathlib

/-!
Shallow embedding of `nutrisnap_app.py` (NutriSnap, a photo-based calorie
and macro tracker).  SQLite values read or written by the app are modelled
by `JVal` (a JSON scalar: number or string); a missing / NULL cell is
`Option.none`.  The `meals` table is a list of rows plus its column list,
so that the startup schema migration (`init_db`) can be stated.  Rational
numbers stand for Python floats (the arithmetic in the app is exact over
the literals involved).
-/

namespace NutriSnap

/-- A JSON scalar value as produced by `json.loads` on the fields the app
touches: a number or a string. -/
inductive JVal where
  | num (q : ℚ)
  | str (s : String)
deriving DecidableEq, Repr

/-- A parsed JSON object (a Python dict), as an association list. -/
abbrev JObj := List (String × JVal)

/-- Python `d[k]` / `d.get(k)`: first binding of key `k`. -/
def jget (o : JObj) (k : String) : Option JVal :=
  (o.find? (fun p => p.1 == k)).map (fun p => p.2)

/-- Python `d.get(k, default)`. -/
def jgetD (o : JObj) (k : String) (d : JVal) : JVal :=
  (jget o k).getD d

/-- One row of the `meals` table.  Every column except the integer primary
key is nullable in SQLite, hence `Option JVal`. -/
structure Row where
  id : Nat
  log_date : Option JVal
  meal_name : Option JVal
  ts : Option JVal
  serving : Option JVal
  calories : Option JVal
  protein_g : Option JVal
  carbs_g : Option JVal
  fat_g : Option JVal
  fiber_g : Option JVal
  sugar_g : Option JVal
deriving DecidableEq, Repr

/-- The `meals` table: its column list (for schema evolution) and rows. -/
structure Table where
  cols : List String
  rows : List Row
deriving DecidableEq, Repr

/-- Value of a named column in a row (`PRAGMA`-style access by name). -/
def rowGet (r : Row) : String → Option JVal
  | "log_date" => r.log_date
  | "meal_name" => r.meal_name
  | "ts" => r.ts
  | "serving" => r.serving
  | "calories" => r.calories
  | "protein_g" => r.protein_g
  | "carbs_g" => r.carbs_g
  | "fat_g" => r.fat_g
  | "fiber_g" => r.fiber_g
  | "sugar_g" => r.sugar_g
  | _ => none

/-- Columns of the `CREATE TABLE IF NOT EXISTS meals(...)` statement. -/
def baseCols : List String :=
  ["id", "log_date", "meal_name", "ts", "serving", "calories",
   "protein_g", "carbs_g", "fat_g", "fiber_g", "sugar_g"]

/-- The `expected` column set checked by `init_db` against
`PRAGMA table_info(meals)`. -/
def expectedCols : List String :=
  ["calories", "protein_g", "carbs_g", "fat_g", "fiber_g", "sugar_g",
   "serving", "ts"]

/-- `init_db()`: create the table if absent (`none` = no `meals` table in
the database file), then `ALTER TABLE meals ADD COLUMN c REAL` for every
expected column not reported by `PRAGMA table_info`.  SQLite's
`ADD COLUMN` without a `DEFAULT` clause leaves existing rows NULL in the
new column, which is why `rows` is untouched. -/
def init_db : Option Table → Table
  | none => { cols := baseCols, rows := [] }
  | some t =>
      { t with cols := t.cols ++ expectedCols.filter (fun c => ! t.cols.contains c) }

/-- A table is well formed when an expected column absent from the schema
is NULL in every row (a row cannot hold data in a column the table does
not have). -/
def TableWF (t : Table) : Prop :=
  ∀ c ∈ expectedCols, c ∉ t.cols → ∀ r ∈ t.rows, rowGet r c = none

/-- SQLite `INTEGER PRIMARY KEY` id assignment: one more than the largest
existing id. -/
def newId (rows : List Row) : Nat :=
  (rows.foldr (fun r m => max r.id m) 0) + 1

/-- `log_meal(name, serving, n)`: the `INSERT INTO meals ... VALUES` in the
source.  `today` and `now` stand for `str(date.today())` and
`datetime.now().strftime("%H:%M")`.  Python raises `KeyError` when the
dict lacks `calories`, `protein_g`, `carbs_g` or `fat_g` (they are indexed
with `n[...]`), hence the `Option` result; `fiber_g` and `sugar_g` use
`n.get(..., 0)`. -/
def log_meal (today now : String) (name serving : JVal) (n : JObj)
    (t : Table) : Option Table :=
  match jget n "calories", jget n "protein_g", jget n "carbs_g", jget n "fat_g" with
  | some cal, some prot, some carb, some fat =>
      some { t with rows := t.rows ++
        [{ id := newId t.rows
           log_date := some (JVal.str today)
           meal_name := some name
           ts := some (JVal.str now)
           serving := some serving
           calories := some cal
           protein_g := some prot
           carbs_g := some carb
           fat_g := some fat
           fiber_g := some (jgetD n "fiber_g" (JVal.num 0))
           sugar_g := some (jgetD n "sugar_g" (JVal.num 0)) }] }
  | _, _, _, _ => none

/-- A row of the dataframe returned by `today_df()`: only the eight
selected columns (`SELECT id, meal_name, ts, serving, calories, protein_g,
carbs_g, fat_g`). -/
structure DfRow where
  id : Nat
  meal_name : Option JVal
  ts : Option JVal
  serving : Option JVal
  calories : Option JVal
  protein_g : Option JVal
  carbs_g : Option JVal
  fat_g : Option JVal
deriving DecidableEq, Repr

/-- Projection of a stored row onto the columns `today_df` selects. -/
def projectRow (r : Row) : DfRow :=
  { id := r.id, meal_name := r.meal_name, ts := r.ts, serving := r.serving,
    calories := r.calories, protein_g := r.protein_g,
    carbs_g := r.carbs_g, fat_g := r.fat_g }

/-- `today_df()`: `SELECT id, meal_name, ts, serving, calories, protein_g,
carbs_g, fat_g FROM meals WHERE log_date = ?` with parameter
`str(date.today())`. -/
def today_df (today : String) (t : Table) : List DfRow :=
  (t.rows.filter (fun r => decide (r.log_date = some (JVal.str today)))).map projectRow

/-- `delete_meal(row_id)`: `DELETE FROM meals WHERE id = ?`. -/
def delete_meal (row_id : Nat) (t : Table) : Table :=
  { t with rows := t.rows.filter (fun r => decide (r.id ≠ row_id)) }

/-- Numeric reading of a dataframe cell as pandas `.sum()` sees it: a NULL
cell is NaN and is skipped (contributes nothing). -/
def cellQ : Option JVal → ℚ
  | some (JVal.num q) => q
  | _ => 0

/-- pandas column sum (`df[key].sum()`), NULL cells skipped. -/
def colSum : List (Option JVal) → ℚ
  | [] => 0
  | v :: l => cellQ v + colSum l

/-- The four per-day aggregates the dashboard computes. -/
structure Sums where
  calories : ℚ
  protein_g : ℚ
  carbs_g : ℚ
  fat_g : ℚ
deriving DecidableEq, Repr

/-- The dashboard's daily aggregation: `df["calories"].sum()` and
`df[key].sum()` for the three macro keys, over `today_df()`. -/
def sum_for_date (today : String) (t : Table) : Sums :=
  { calories := colSum ((today_df today t).map (fun r => r.calories))
    protein_g := colSum ((today_df today t).map (fun r => r.protein_g))
    carbs_g := colSum ((today_df today t).map (fun r => r.carbs_g))
    fat_g := colSum ((today_df today t).map (fun r => r.fat_g)) }

/-- `mifflin(sex, kg, cm, age)`: the Mifflin-St Jeor BMR formula from the
source, with the sex adjustment `+5` for the exact string `"Male"` and
`-161` otherwise. -/
def mifflin (sex : String) (kg cm age : ℚ) : ℚ :=
  (10 * kg + 6.25 * cm - 5 * age) + (if sex = "Male" then 5 else -161)

/-- The `ACTIVITY` multiplier dict. -/
def activityPairs : List (String × ℚ) :=
  [("Sedentary", 1.2),
   ("Light (1‑2×/wk)", 1.375),
   ("Moderate (3‑5×/wk)", 1.55),
   ("Heavy (6‑7×/wk)", 1.725),
   ("Athlete / Physical job", 1.9)]

/-- The `GOALS` multiplier dict. -/
def goalPairs : List (String × ℚ) :=
  [("Lose Weight (‑20 %)", 0.8),
   ("Maintain", 1.0),
   ("Gain Muscle (+15 %)", 1.15)]

/-- `ACTIVITY[key]` lookup. -/
def ACTIVITY (k : String) : Option ℚ :=
  (activityPairs.find? (fun p => p.1 == k)).map (fun p => p.2)

/-- `GOALS[key]` lookup. -/
def GOALS (k : String) : Option ℚ :=
  (goalPairs.find? (fun p => p.1 == k)).map (fun p => p.2)

/-- `tdee = bmr * ACTIVITY[p.act] * GOALS[p.goal]` (the multiplication in
`dashboard`). -/
def tdee (bmr act goal : ℚ) : ℚ :=
  bmr * act * goal

/-- The in-memory profile stored in `st.session_state.profile`. -/
structure Profile where
  sex : String
  age : ℚ
  wt : ℚ
  ht : ℚ
  act : String
  goal : String
deriving DecidableEq, Repr

/-- The dashboard's daily target computation: BMR through `mifflin`, then
the activity and goal multipliers looked up in the two dicts. -/
def dashboardTarget (p : Profile) : Option ℚ :=
  match ACTIVITY p.act, GOALS p.goal with
  | some a, some g => some (tdee (mifflin p.sex p.wt p.ht p.age) a g)
  | _, _ => none

/-- The `macro_targets` dict computed in `dashboard` from the daily target:
`(protein_g, carbs_g, fat_g)`. -/
def macro_targets (target : ℚ) : ℚ × ℚ × ℚ :=
  (0.25 * target / 4, 0.50 * target / 4, 0.25 * target / 9)

/-- `vision_estimate`: the body formats a prompt, calls the model and
returns `json.loads(resp.choices[0].message.content)` with no validation
of the parsed object.  The upstream content is modelled as `none` when it
is not valid JSON (then `json.loads` raises `json.JSONDecodeError`) and as
the parsed object otherwise, which is returned as-is. -/
def vision_estimate (resp : Option JObj) : Except String JObj :=
  match resp with
  | none => Except.error "json.JSONDecodeError"
  | some o => Except.ok o

/-- Evaluation of the f-string `{info[k]:.0f}` / `{info[k]:.1f}`: a missing
key raises `KeyError`, a string value raises `ValueError` (unknown format
code 'f' for str). -/
def reqNum (o : JObj) (k : String) : Except String ℚ :=
  match jget o k with
  | some (JVal.num q) => Except.ok q
  | some (JVal.str _) => Except.error ("ValueError: format .1f on str value of " ++ k)
  | none => Except.error ("KeyError: " ++ k)

/-- Evaluation of `{info.get(k, 0):.1f}`: the default 0 formats fine, a
present string value still raises `ValueError`. -/
def optNum (o : JObj) (k : String) : Except String ℚ :=
  match jgetD o k (JVal.num 0) with
  | JVal.num q => Except.ok q
  | JVal.str _ => Except.error ("ValueError: format .1f on str value of " ++ k)

/-- The rendering `add_meal` performs once an analysis result is present,
in source order: the image caption and Calories metric format
`info['calories']`, the nutrition grid formats `info['protein_g']`,
`info['carbs_g']`, `info['fat_g']`, `info.get('fiber_g', 0)` and
`info.get('sugar_g', 0)`.  `meal_name` and `serving` are only read with
`.get` and a default, so they can never fail.  The first failing format
aborts the script run. -/
def renderAnalysis (o : JObj) : Except String Unit :=
  match reqNum o "calories" with
  | Except.error e => Except.error e
  | Except.ok _ =>
    match reqNum o "protein_g" with
    | Except.error e => Except.error e
    | Except.ok _ =>
      match reqNum o "carbs_g" with
      | Except.error e => Except.error e
      | Except.ok _ =>
        match reqNum o "fat_g" with
        | Except.error e => Except.error e
        | Except.ok _ =>
          match optNum o "fiber_g" with
          | Except.error e => Except.error e
          | Except.ok _ =>
            match optNum o "sugar_g" with
            | Except.error e => Except.error e
            | Except.ok _ => Except.ok ()

/-- Drop leading whitespace characters from a character list. -/
def dropLeadingWS : List Char → List Char
  | [] => []
  | c :: cs => if c.isWhitespace then dropLeadingWS cs else c :: cs

/-- Python `str.strip()`: surrounding whitespace removed from both ends. -/
def pyStrip (s : String) : String :=
  ⟨dropLeadingWS ((dropLeadingWS s.data.reverse).reverse)⟩

/-- The meal name persisted on confirm-save:
`name_in.strip() or info.get("meal_name", "Untitled meal")` (an empty
string is falsy in Python, so the stripped label wins exactly when it is
non-empty). -/
def final_name (name_in : String) (o : JObj) : JVal :=
  if pyStrip name_in ≠ "" then JVal.str (pyStrip name_in)
  else jgetD o "meal_name" (JVal.str "Untitled meal")

/-- The confirm-save handler: `log_meal(final_name,
info.get("serving", "1 serving"), info)`. -/
def confirmSave (today now name_in : String) (o : JObj) (t : Table) : Option Table :=
  log_meal today now (final_name name_in o) (jgetD o "serving" (JVal.str "1 serving")) o t

/-- The whole add-meal path for one analysis: parse the upstream response
(`vision_estimate`), render the analysis (which is where a missing or
non-numeric macro raises), then run the confirm-save handler.  An error
anywhere stops the script before `log_meal` runs. -/
def addMealFlow (resp : Option JObj) (name_in today now : String)
    (t : Table) : Except String Table :=
  match vision_estimate resp with
  | Except.error e => Except.error e
  | Except.ok info =>
    match renderAnalysis info with
    | Except.error e => Except.error e
    | Except.ok _ =>
      match confirmSave today now name_in info t with
      | some t' => Except.ok t'
      | none => Except.error "KeyError: calories"

/-- The database as left by one add-meal attempt: unchanged when the flow
raised anywhere before the insert. -/
def runAddMeal (resp : Option JObj) (name_in today now : String) (t : Table) : Table :=
  match addMealFlow resp name_in today now t with
  | Except.ok t' => t'
  | Except.error _ => t

/-- Session state held by the view controller: the optional profile and
the current view string (`"dashboard"`, `"add"` or `"profile"`). -/
structure State where
  profile : Option Profile
  view : String
deriving DecidableEq, Repr

/-- The session-state bootstrap: `profile = None`, and `view = "profile"`
because the profile was just set to `None`. -/
def initState : State :=
  { profile := none, view := "profile" }

/-- One user-driven state transition of the controller. -/
inductive Step : State → State → Prop where
  | nav (s : State) (v : String) (hp : s.profile.isSome = true)
      (hv : v = "dashboard" ∨ v = "add" ∨ v = "profile") :
      Step s { s with view := v }
  | saveProfile (s : State) (p : Profile) :
      Step s { profile := some p, view := "dashboard" }
  | editButton (s : State) (h : s.view = "dashboard") :
      Step s { s with view := "profile" }
  | dashboardRedirect (s : State) (h : s.view = "dashboard") (hp : s.profile = none) :
      Step s { s with view := "profile" }
  | confirmSaveNav (s : State) (h : s.view = "add") :
      Step s { s with view := "dashboard" }

/-- States reachable from the bootstrap state. -/
inductive Reachable : State → Prop where
  | init : Reachable initState
  | step {s s' : State} : Reachable s → Step s s' → Reachable s'

/-- The router's dispatch on `st.session_state.view`: the resulting state
and whether a protected view body was rendered.  `dashboard()` checks the
profile and redirects to the profile editor when it is absent; `add_meal()`
renders unconditionally (it has no profile check in the source). -/
def routerRender (s : State) : State × Bool :=
  match s.view with
  | "dashboard" =>
      if s.profile = none then ({ s with view := "profile" }, false) else (s, true)
  | "add" => (s, true)
  | _ => (s, false)

/-- Equality between a listed row and an input record on the fields
`today_df` actually returns (all of them except the assigned id). -/
def dfMatches (now : String) (name serving : JVal) (n : JObj) (dr : DfRow) : Bool :=
  decide (dr.meal_name = some name ∧ dr.ts = some (JVal.str now) ∧
    dr.serving = some serving ∧ dr.calories = jget n "calories" ∧
    dr.protein_g = jget n "protein_g" ∧ dr.carbs_g = jget n "carbs_g" ∧
    dr.fat_g = jget n "fat_g")

/-! ## Theorems -/

/-- Inversion of a successful insert: `log_meal` succeeds exactly when the
four indexed keys are present, and then it appends one row holding every
input field verbatim. -/
lemma log_meal_eq_some {today now : String} {name serving : JVal} {n : JObj}
    {t t' : Table} (h : log_meal today now name serving n t = some t') :
    ∃ cal prot carb fat,
      jget n "calories" = some cal ∧ jget n "protein_g" = some prot ∧
      jget n "carbs_g" = some carb ∧ jget n "fat_g" = some fat ∧
      t' = { t with rows := t.rows ++
        [{ id := newId t.rows
           log_date := some (JVal.str today)
           meal_name := some name
           ts := some (JVal.str now)
           serving := some serving
           calories := some cal
           protein_g := some prot
           carbs_g := some carb
           fat_g := some fat
           fiber_g := some (jgetD n "fiber_g" (JVal.num 0))
           sugar_g := some (jgetD n "sugar_g" (JVal.num 0)) }] } := by
  unfold log_meal at h
  split at h
  · next cal prot carb fat hc hp hcb hf =>
    exact ⟨cal, prot, carb, fat, hc, hp, hcb, hf, (Option.some.inj h).symm⟩
  · exact absurd h (by simp)

/-- C4: for every kcal value, `macro_targets` returns
`protein_g = 0.25*kcal/4`, `carbs_g = 0.50*kcal/4` and
`fat_g = 0.25*kcal/9`, and these outputs satisfy
`protein_g*4 + carbs_g*4 + fat_g*9 = kcal` exactly over exact
arithmetic. -/
theorem C4_macro_targets_identity (kcal : ℚ) :
    (macro_targets kcal).1 = 0.25 * kcal / 4 ∧
    (macro_targets kcal).2.1 = 0.50 * kcal / 4 ∧
    (macro_targets kcal).2.2 = 0.25 * kcal / 9 ∧
    (macro_targets kcal).1 * 4 + (macro_targets kcal).2.1 * 4 +
      (macro_targets kcal).2.2 * 9 = kcal := by
  refine ⟨rfl, rfl, rfl, ?_⟩
  simp only [macro_targets]
  ring

/-- C5: `mifflin` computes `10*kg + 6.25*cm - 5*age` plus 5 for `"Male"`
and -161 otherwise; the dashboard target is BMR times the activity and
goal multipliers; concretely, for Male, age 30, 70 kg, 175 cm, Sedentary,
Maintain: BMR = 1648.75 and TDEE = 1978.5 kcal. -/
theorem C5_bmr_tdee_formula :
    (∀ (sex : String) (kg cm age : ℚ),
       mifflin sex kg cm age =
         10 * kg + 6.25 * cm - 5 * age + (if sex = "Male" then 5 else -161)) ∧
    mifflin "Male" 70 175 30 = 1648.75 ∧
    dashboardTarget
      { sex := "Male", age := 30, wt := 70, ht := 175,
        act := "Sedentary", goal := "Maintain" } = some 1978.5 := by
  refine ⟨fun sex kg cm age => rfl, by norm_num [mifflin], ?_⟩
  simp [dashboardTarget, ACTIVITY, GOALS, activityPairs, goalPairs, List.find?,
    mifflin, tdee]
  norm_num

/-- C7: `delete_meal` is idempotent and deleting an absent id is a no-op:
deleting the same id twice leaves the same ledger as deleting it once, and
when no row carries the id the ledger is unchanged. -/
theorem C7_delete_idempotent (t : Table) (row_id : Nat) :
    delete_meal row_id (delete_meal row_id t) = delete_meal row_id t ∧
    ((∀ r ∈ t.rows, r.id ≠ row_id) → delete_meal row_id t = t) := by
  constructor
  · show ({ delete_meal row_id t with
      rows := (delete_meal row_id t).rows.filter _ } : Table) = _
    have h : ((t.rows.filter (fun r => decide (r.id ≠ row_id))).filter
        (fun r => decide (r.id ≠ row_id))) =
        t.rows.filter (fun r => decide (r.id ≠ row_id)) := by
      apply List.filter_eq_self.mpr
      intro r hr
      exact (List.mem_filter.mp hr).2
    simp [delete_meal, h]
  · intro hall
    have h : t.rows.filter (fun r => decide (r.id ≠ row_id)) = t.rows := by
      apply List.filter_eq_self.mpr
      intro r hr
      exact decide_eq_true (hall r hr)
    show ({ t with rows := t.rows.filter (fun r => decide (r.id ≠ row_id)) } : Table) = t
    rw [h]

/-- Witness for C7 at a concrete ledger: the empty store just after
`init_db`, deleting id 5. -/
theorem C7_delete_idempotent_witness :
    delete_meal 5 (delete_meal 5 (init_db none)) = delete_meal 5 (init_db none) ∧
    delete_meal 5 (init_db none) = init_db none := by
  have h := C7_delete_idempotent (init_db none) 5
  exact ⟨h.1, h.2 (by intro r hr; simp [init_db] at hr)⟩

/-- On the profile editor's input ranges the BMR is strictly positive: the
smallest case is 10*30 + 6.25*120 - 5*100 - 161 = 389. -/
lemma mifflin_pos (sex : String) (kg cm age : ℚ)
    (hkg : 30 ≤ kg) (hcm : 120 ≤ cm) (hage : age ≤ 100) :
    0 < mifflin sex kg cm age := by
  unfold mifflin
  have hsex : (-161 : ℚ) ≤ (if sex = "Male" then (5 : ℚ) else -161) := by
    split <;> norm_num
  linarith

/-- Shifting the weight input shifts the BMR by ten times as much. -/
lemma mifflin_shift_kg (sex : String) (kg kg' cm age : ℚ) :
    mifflin sex kg' cm age = mifflin sex kg cm age + 10 * (kg' - kg) := by
  unfold mifflin
  ring

/-- Shifting the height input shifts the BMR by 6.25 times as much. -/
lemma mifflin_shift_cm (sex : String) (kg cm cm' age : ℚ) :
    mifflin sex kg cm' age = mifflin sex kg cm age + 6.25 * (cm' - cm) := by
  unfold mifflin
  ring

/-- C8: over the profile editor's input ranges and positive multipliers
the daily energy target is strictly positive, and it is strictly
increasing in weight, in height (for fixed age), in the activity
multiplier and in the goal multiplier. -/
theorem C8_target_positive_monotone :
    (∀ (sex : String) (kg cm age a g : ℚ),
       30 ≤ kg → kg ≤ 250 → 120 ≤ cm → cm ≤ 250 → 10 ≤ age → age ≤ 100 →
       0 < a → 0 < g → 0 < tdee (mifflin sex kg cm age) a g) ∧
    (∀ (sex : String) (kg kg' cm age a g : ℚ), 0 < a → 0 < g → kg < kg' →
       tdee (mifflin sex kg cm age) a g < tdee (mifflin sex kg' cm age) a g) ∧
    (∀ (sex : String) (kg cm cm' age a g : ℚ), 0 < a → 0 < g → cm < cm' →
       tdee (mifflin sex kg cm age) a g < tdee (mifflin sex kg cm' age) a g) ∧
    (∀ (sex : String) (kg cm age a a' g : ℚ),
       30 ≤ kg → kg ≤ 250 → 120 ≤ cm → cm ≤ 250 → 10 ≤ age → age ≤ 100 →
       0 < g → a < a' →
       tdee (mifflin sex kg cm age) a g < tdee (mifflin sex kg cm age) a' g) ∧
    (∀ (sex : String) (kg cm age a g g' : ℚ),
       30 ≤ kg → kg ≤ 250 → 120 ≤ cm → cm ≤ 250 → 10 ≤ age → age ≤ 100 →
       0 < a → g < g' →
       tdee (mifflin sex kg cm age) a g < tdee (mifflin sex kg cm age) a g') := by
  refine ⟨?_, ?_, ?_, ?_, ?_⟩
  · intro sex kg cm age a g hkg _ hcm _ _ hage ha hg
    exact mul_pos (mul_pos (mifflin_pos sex kg cm age hkg hcm hage) ha) hg
  · intro sex kg kg' cm age a g ha hg hlt
    have hb : mifflin sex kg cm age < mifflin sex kg' cm age := by
      rw [mifflin_shift_kg sex kg kg' cm age]
      nlinarith
    exact mul_lt_mul_of_pos_right (mul_lt_mul_of_pos_right hb ha) hg
  · intro sex kg cm cm' age a g ha hg hlt
    have hb : mifflin sex kg cm age < mifflin sex kg cm' age := by
      rw [mifflin_shift_cm sex kg cm cm' age]
      nlinarith
    exact mul_lt_mul_of_pos_right (mul_lt_mul_of_pos_right hb ha) hg
  · intro sex kg cm age a a' g hkg _ hcm _ _ hage hg hlt
    have hb := mifflin_pos sex kg cm age hkg hcm hage
    exact mul_lt_mul_of_pos_right (mul_lt_mul_of_pos_left hlt hb) hg
  · intro sex kg cm age a g g' hkg _ hcm _ _ hage ha hlt
    have hb := mifflin_pos sex kg cm age hkg hcm hage
    exact mul_lt_mul_of_pos_left hlt (mul_pos hb ha)

/-- Witness for C8 at concrete profiles: a Female profile of 60 kg,
165 cm, age 40, with each monotonicity conjunct instantiated. -/
theorem C8_target_positive_monotone_witness :
    0 < tdee (mifflin "Female" 60 165 40) 1.375 0.8 ∧
    tdee (mifflin "Female" 60 165 40) 1.375 0.8 <
      tdee (mifflin "Female" 61 165 40) 1.375 0.8 ∧
    tdee (mifflin "Female" 60 165 40) 1.375 0.8 <
      tdee (mifflin "Female" 60 166 40) 1.375 0.8 ∧
    tdee (mifflin "Female" 60 165 40) 1.375 0.8 <
      tdee (mifflin "Female" 60 165 40) 1.55 0.8 ∧
    tdee (mifflin "Female" 60 165 40) 1.375 0.8 <
      tdee (mifflin "Female" 60 165 40) 1.375 1.0 := by
  have h := C8_target_positive_monotone
  refine ⟨?_, ?_, ?_, ?_, ?_⟩
  · exact h.1 "Female" 60 165 40 1.375 0.8 (by norm_num) (by norm_num)
      (by norm_num) (by norm_num) (by norm_num) (by norm_num)
      (by norm_num) (by norm_num)
  · exact h.2.1 "Female" 60 61 165 40 1.375 0.8 (by norm_num) (by norm_num)
      (by norm_num)
  · exact h.2.2.1 "Female" 60 165 166 40 1.375 0.8 (by norm_num) (by norm_num)
      (by norm_num)
  · exact h.2.2.2.1 "Female" 60 165 40 1.375 1.55 0.8 (by norm_num) (by norm_num)
      (by norm_num) (by norm_num) (by norm_num) (by norm_num)
      (by norm_num) (by norm_num)
  · exact h.2.2.2.2 "Female" 60 165 40 1.375 0.8 1.0 (by norm_num) (by norm_num)
      (by norm_num) (by norm_num) (by norm_num) (by norm_num)
      (by norm_num) (by norm_num)

/-- Appending a row whose `log_date` is the queried date extends the
`today_df` listing by exactly its projection. -/
lemma today_df_append_row (today : String) (t : Table) (row : Row)
    (h : row.log_date = some (JVal.str today)) :
    today_df today { t with rows := t.rows ++ [row] } =
      today_df today t ++ [projectRow row] := by
  simp [today_df, List.filter_append, h]

/-- C1 (amended): a successful `log_meal` appends exactly one row holding
all ten input fields verbatim (nothing dropped in storage), and
`today_df` for that date then lists exactly one row agreeing with the
input on every column the query selects — `meal_name`, `ts`, `serving`,
`calories`, `protein_g`, `carbs_g`, `fat_g` — provided no already-stored
row agrees with the input on those columns.  `fiber_g` and `sugar_g` are
stored but are not among the columns `today_df` selects, so the listed
record matches the input only up to that projection. -/
theorem C1_round_trip (t : Table) (today now : String) (name serving : JVal)
    (n : JObj) (t' : Table)
    (hlog : log_meal today now name serving n t = some t')
    (hfresh : ∀ r ∈ t.rows, dfMatches now name serving n (projectRow r) = false) :
    ((today_df today t').filter (dfMatches now name serving n)).length = 1 ∧
    ∃ row, t'.rows = t.rows ++ [row] ∧
      row.log_date = some (JVal.str today) ∧
      row.meal_name = some name ∧ row.ts = some (JVal.str now) ∧
      row.serving = some serving ∧
      row.calories = jget n "calories" ∧ row.protein_g = jget n "protein_g" ∧
      row.carbs_g = jget n "carbs_g" ∧ row.fat_g = jget n "fat_g" ∧
      row.fiber_g = some (jgetD n "fiber_g" (JVal.num 0)) ∧
      row.sugar_g = some (jgetD n "sugar_g" (JVal.num 0)) := by
  obtain ⟨cal, prot, carb, fat, hc, hp, hcb, hf, ht'⟩ := log_meal_eq_some hlog
  subst ht'
  constructor
  · rw [today_df_append_row today t _ rfl, List.filter_append]
    have hnil : (today_df today t).filter (dfMatches now name serving n) = [] := by
      rw [List.filter_eq_nil_iff]
      intro dr hdr
      obtain ⟨r, hr, hproj⟩ := List.mem_map.mp hdr
      have hrt : r ∈ t.rows := List.mem_of_mem_filter hr
      rw [← hproj]
      simp [hfresh r hrt]
    rw [hnil]
    simp [dfMatches, projectRow, hc, hp, hcb, hf]
  · refine ⟨_, rfl, rfl, rfl, rfl, rfl, ?_, ?_, ?_, ?_, rfl, rfl⟩
    · exact hc.symm
    · exact hp.symm
    · exact hcb.symm
    · exact hf.symm

/-- A vision estimate with the four indexed macros and no fiber/sugar. -/
def c1Obj : JObj :=
  [("calories", JVal.num 95), ("protein_g", JVal.num 1),
   ("carbs_g", JVal.num 25), ("fat_g", JVal.num 0)]

/-- The same estimate except for `fiber_g = 9`. -/
def c1ObjB : JObj :=
  [("calories", JVal.num 95), ("protein_g", JVal.num 1),
   ("carbs_g", JVal.num 25), ("fat_g", JVal.num 0),
   ("fiber_g", JVal.num 9)]

/-- The store after logging `c1Obj` as "Apple" into a fresh database. -/
def c1After : Table :=
  { cols := baseCols
    rows := [{ id := 1
               log_date := some (JVal.str "2024-01-01")
               meal_name := some (JVal.str "Apple")
               ts := some (JVal.str "12:00")
               serving := some (JVal.str "1 apple")
               calories := some (JVal.num 95)
               protein_g := some (JVal.num 1)
               carbs_g := some (JVal.num 25)
               fat_g := some (JVal.num 0)
               fiber_g := some (JVal.num 0)
               sugar_g := some (JVal.num 0) }] }

/-- Witness for C1 on a fresh database and the concrete "Apple" record. -/
theorem C1_round_trip_witness :
    ((today_df "2024-01-01" c1After).filter
       (dfMatches "12:00" (JVal.str "Apple") (JVal.str "1 apple") c1Obj)).length = 1 ∧
    ∃ row, c1After.rows = (init_db none).rows ++ [row] ∧
      row.log_date = some (JVal.str "2024-01-01") ∧
      row.meal_name = some (JVal.str "Apple") ∧
      row.ts = some (JVal.str "12:00") ∧
      row.serving = some (JVal.str "1 apple") ∧
      row.calories = jget c1Obj "calories" ∧
      row.protein_g = jget c1Obj "protein_g" ∧
      row.carbs_g = jget c1Obj "carbs_g" ∧
      row.fat_g = jget c1Obj "fat_g" ∧
      row.fiber_g = some (jgetD c1Obj "fiber_g" (JVal.num 0)) ∧
      row.sugar_g = some (jgetD c1Obj "sugar_g" (JVal.num 0)) :=
  C1_round_trip (init_db none) "2024-01-01" "12:00" (JVal.str "Apple")
    (JVal.str "1 apple") c1Obj c1After rfl
    (by intro r hr; simp [init_db] at hr)

/-- C1 counterexample: two inputs that differ only in `fiber_g` are stored
differently (append keeps every field) but produce identical `today_df`
listings, so the listing cannot contain a record equal to the full input
record for both — `today_df` does not return the stored `fiber_g` and
`sugar_g` fields. -/
theorem C1_counterexample :
    c1Obj ≠ c1ObjB ∧
    log_meal "2024-01-01" "12:00" (JVal.str "Apple") (JVal.str "1 apple")
        c1Obj (init_db none) ≠
      log_meal "2024-01-01" "12:00" (JVal.str "Apple") (JVal.str "1 apple")
        c1ObjB (init_db none) ∧
    Option.map (today_df "2024-01-01")
        (log_meal "2024-01-01" "12:00" (JVal.str "Apple") (JVal.str "1 apple")
          c1Obj (init_db none)) =
      Option.map (today_df "2024-01-01")
        (log_meal "2024-01-01" "12:00" (JVal.str "Apple") (JVal.str "1 apple")
          c1ObjB (init_db none)) := by
  refine ⟨by decide, by decide, by decide⟩

/-- The column sum distributes over list append. -/
lemma colSum_append (l1 l2 : List (Option JVal)) :
    colSum (l1 ++ l2) = colSum l1 + colSum l2 := by
  induction l1 with
  | nil => simp [colSum]
  | cons v l ih => simp [colSum, ih]; ring

/-- Appending a row for the queried date adds its four numeric cells to
the daily aggregates. -/
lemma sum_for_date_append_row (d : String) (t : Table) (row : Row)
    (h : row.log_date = some (JVal.str d)) :
    sum_for_date d { t with rows := t.rows ++ [row] } =
      { calories := (sum_for_date d t).calories + cellQ row.calories
        protein_g := (sum_for_date d t).protein_g + cellQ row.protein_g
        carbs_g := (sum_for_date d t).carbs_g + cellQ row.carbs_g
        fat_g := (sum_for_date d t).fat_g + cellQ row.fat_g } := by
  simp [sum_for_date, today_df_append_row d t row h, colSum_append, colSum,
    projectRow]

/-- A demo estimate with the given calories and fixed macros 10/20/5. -/
def mealObj (cal : ℚ) : JObj :=
  [("calories", JVal.num cal), ("protein_g", JVal.num 10),
   ("carbs_g", JVal.num 20), ("fat_g", JVal.num 5)]

/-- One demo row on 2024-01-01. -/
def demoRow (i : Nat) (tm : String) (nm : String) (cal : ℚ) : Row :=
  { id := i
    log_date := some (JVal.str "2024-01-01")
    meal_name := some (JVal.str nm)
    ts := some (JVal.str tm)
    serving := some (JVal.str "1 serving")
    calories := some (JVal.num cal)
    protein_g := some (JVal.num 10)
    carbs_g := some (JVal.num 20)
    fat_g := some (JVal.num 5)
    fiber_g := some (JVal.num 0)
    sugar_g := some (JVal.num 0) }

/-- The store after one demo meal. -/
def demoT1 : Table :=
  { cols := baseCols, rows := [demoRow 1 "08:00" "breakfast" 300] }

/-- The store after the three demo meals of 300, 450 and 220 kcal. -/
def demoT3 : Table :=
  { cols := baseCols
    rows := [demoRow 1 "08:00" "breakfast" 300, demoRow 2 "13:00" "lunch" 450,
             demoRow 3 "19:00" "dinner" 220] }

/-- Logging the three demo meals of the spec scenario into a fresh store. -/
def demoDay : Option Table :=
  ((log_meal "2024-01-01" "08:00" (JVal.str "breakfast") (JVal.str "1 serving")
      (mealObj 300) (init_db none)).bind
    (log_meal "2024-01-01" "13:00" (JVal.str "lunch") (JVal.str "1 serving")
      (mealObj 450))).bind
    (log_meal "2024-01-01" "19:00" (JVal.str "dinner") (JVal.str "1 serving")
      (mealObj 220))

/-- C6: the daily aggregate is the all-zero record when no row carries the
date, appending a record adds its four macro fields to the aggregate, and
in the spec's scenario the calorie sums are 970 after the three inserts
and 520 after deleting the 450 kcal meal (id 2). -/
theorem C6_sum_for_date :
    (∀ (t : Table) (d : String),
       (∀ r ∈ t.rows, r.log_date ≠ some (JVal.str d)) →
       sum_for_date d t = { calories := 0, protein_g := 0, carbs_g := 0, fat_g := 0 }) ∧
    (∀ (t t' : Table) (d now : String) (name serving : JVal) (n : JObj) (c p cb f : ℚ),
       log_meal d now name serving n t = some t' →
       jget n "calories" = some (JVal.num c) →
       jget n "protein_g" = some (JVal.num p) →
       jget n "carbs_g" = some (JVal.num cb) →
       jget n "fat_g" = some (JVal.num f) →
       sum_for_date d t' =
         { calories := (sum_for_date d t).calories + c
           protein_g := (sum_for_date d t).protein_g + p
           carbs_g := (sum_for_date d t).carbs_g + cb
           fat_g := (sum_for_date d t).fat_g + f }) ∧
    demoDay = some demoT3 ∧
    (sum_for_date "2024-01-01" demoT3).calories = 970 ∧
    (sum_for_date "2024-01-01" (delete_meal 2 demoT3)).calories = 520 := by
  refine ⟨?_, ?_, ?_, ?_, ?_⟩
  · intro t d h
    have hfilter : t.rows.filter
        (fun r => decide (r.log_date = some (JVal.str d))) = [] := by
      rw [List.filter_eq_nil_iff]
      intro r hr
      simp [h r hr]
    simp [sum_for_date, today_df, hfilter, colSum]
  · intro t t' d now name serving n c p cb f hlog hc hp hcb hf
    obtain ⟨cal, prot, carb, fat, hc', hp', hcb', hf', ht'⟩ := log_meal_eq_some hlog
    rw [hc] at hc'
    rw [hp] at hp'
    rw [hcb] at hcb'
    rw [hf] at hf'
    obtain rfl : JVal.num c = cal := Option.some.inj hc'
    obtain rfl : JVal.num p = prot := Option.some.inj hp'
    obtain rfl : JVal.num cb = carb := Option.some.inj hcb'
    obtain rfl : JVal.num f = fat := Option.some.inj hf'
    subst ht'
    rw [sum_for_date_append_row d t _ rfl]
    simp [cellQ]
  · rfl
  · simp [demoT3, demoRow, sum_for_date, today_df, projectRow, colSum, cellQ]
    norm_num
  · simp [demoT3, demoRow, delete_meal, sum_for_date, today_df, projectRow,
      colSum, cellQ]
    norm_num

/-- Witness for C6: the empty-day aggregate on a fresh store, and the
aggregate after one 300 kcal demo meal. -/
theorem C6_sum_for_date_witness :
    sum_for_date "2024-01-01" (init_db none) =
      { calories := 0, protein_g := 0, carbs_g := 0, fat_g := 0 } ∧
    sum_for_date "2024-01-01" demoT1 =
      { calories := (sum_for_date "2024-01-01" (init_db none)).calories + 300
        protein_g := (sum_for_date "2024-01-01" (init_db none)).protein_g + 10
        carbs_g := (sum_for_date "2024-01-01" (init_db none)).carbs_g + 20
        fat_g := (sum_for_date "2024-01-01" (init_db none)).fat_g + 5 } := by
  have h := C6_sum_for_date
  constructor
  · exact h.1 (init_db none) "2024-01-01" (by intro r hr; simp [init_db] at hr)
  · exact h.2.1 (init_db none) demoT1 "2024-01-01" "08:00" (JVal.str "breakfast")
      (JVal.str "1 serving") (mealObj 300) 300 10 20 5 rfl rfl rfl rfl rfl

/-- The store after confirm-saving the "Apple" estimate under the typed
label "  my snack  " into a fresh database. -/
def c10After : Table :=
  { cols := baseCols
    rows := [{ id := 1
               log_date := some (JVal.str "2024-01-01")
               meal_name := some (JVal.str "my snack")
               ts := some (JVal.str "12:00")
               serving := some (JVal.str "1 serving")
               calories := some (JVal.num 95)
               protein_g := some (JVal.num 1)
               carbs_g := some (JVal.num 25)
               fat_g := some (JVal.num 0)
               fiber_g := some (JVal.num 0)
               sugar_g := some (JVal.num 0) }] }

/-- C10: on confirm-save the persisted `meal_name` is the user label with
surrounding whitespace stripped when non-empty, otherwise the estimate's
`meal_name`, otherwise the literal "Untitled meal"; the persisted
`serving` is the estimate's `serving`, or the literal "1 serving" when the
estimate lacks that key. -/
theorem C10_confirm_save_defaults (today now name_in : String) (o : JObj)
    (t t' : Table) (hsave : confirmSave today now name_in o t = some t') :
    (pyStrip name_in ≠ "" → final_name name_in o = JVal.str (pyStrip name_in)) ∧
    (pyStrip name_in = "" →
       final_name name_in o = (jget o "meal_name").getD (JVal.str "Untitled meal")) ∧
    ∃ row, t'.rows = t.rows ++ [row] ∧
      row.meal_name = some (final_name name_in o) ∧
      row.serving = some ((jget o "serving").getD (JVal.str "1 serving")) := by
  refine ⟨?_, ?_, ?_⟩
  · intro h
    simp [final_name, h]
  · intro h
    simp [final_name, h, jgetD]
  · obtain ⟨cal, prot, carb, fat, _, _, _, _, ht'⟩ :=
      log_meal_eq_some (hsave : log_meal today now (final_name name_in o)
        (jgetD o "serving" (JVal.str "1 serving")) o t = some t')
    subst ht'
    exact ⟨_, rfl, rfl, rfl⟩

/-- Witness for C10: saving the "Apple" estimate under the typed label
"  my snack  " persists the stripped label, and under the empty label the
row structure is as the theorem states. -/
theorem C10_confirm_save_defaults_witness :
    (pyStrip "  my snack  " ≠ "" →
       final_name "  my snack  " c1Obj = JVal.str (pyStrip "  my snack  ")) ∧
    (pyStrip "  my snack  " = "" →
       final_name "  my snack  " c1Obj =
         (jget c1Obj "meal_name").getD (JVal.str "Untitled meal")) ∧
    ∃ row, c10After.rows = (init_db none).rows ++ [row] ∧
      row.meal_name = some (final_name "  my snack  " c1Obj) ∧
      row.serving = some ((jget c1Obj "serving").getD (JVal.str "1 serving")) :=
  C10_confirm_save_defaults "2024-01-01" "12:00" "  my snack  " c1Obj
    (init_db none) c10After (by decide)

/-- A response missing `protein_g` but holding the other macros. -/
def c2NoProtein : JObj :=
  [("meal_name", JVal.str "ramen"), ("calories", JVal.num 500),
   ("carbs_g", JVal.num 70), ("fat_g", JVal.num 15),
   ("serving", JVal.str "1 bowl")]

/-- A response with all four numeric macros but no `meal_name` and no
`serving` key. -/
def c2NoNames : JObj :=
  [("calories", JVal.num 250), ("protein_g", JVal.num 12),
   ("carbs_g", JVal.num 30), ("fat_g", JVal.num 8)]

/-- Whether an optional cell holds a number. -/
def isNumVal : Option JVal → Bool
  | some (JVal.num _) => true
  | _ => false

/-- Whether the add-meal flow completed without raising. -/
def flowOk : Except String Table → Bool
  | Except.ok _ => true
  | Except.error _ => false

/-- A required macro formats without raising exactly when its cell holds a
number. -/
lemma reqNum_ok_iff (o : JObj) (k : String) :
    (∃ q, reqNum o k = Except.ok q) ↔ isNumVal (jget o k) = true := by
  unfold reqNum isNumVal
  cases h : jget o k with
  | none => simp
  | some v => cases v <;> simp

/-- If the analysis rendering completed, the four indexed macros are all
numeric. -/
lemma renderAnalysis_ok_numeric (o : JObj) (u : Unit)
    (h : renderAnalysis o = Except.ok u) :
    isNumVal (jget o "calories") = true ∧ isNumVal (jget o "protein_g") = true ∧
    isNumVal (jget o "carbs_g") = true ∧ isNumVal (jget o "fat_g") = true := by
  unfold renderAnalysis at h
  cases h1 : reqNum o "calories" with
  | error e => rw [h1] at h; exact absurd h (by simp)
  | ok q1 =>
    rw [h1] at h
    cases h2 : reqNum o "protein_g" with
    | error e => rw [h2] at h; exact absurd h (by simp)
    | ok q2 =>
      rw [h2] at h
      cases h3 : reqNum o "carbs_g" with
      | error e => rw [h3] at h; exact absurd h (by simp)
      | ok q3 =>
        rw [h3] at h
        cases h4 : reqNum o "fat_g" with
        | error e => rw [h4] at h; exact absurd h (by simp)
        | ok q4 =>
          exact ⟨(reqNum_ok_iff o "calories").mp ⟨q1, h1⟩,
            (reqNum_ok_iff o "protein_g").mp ⟨q2, h2⟩,
            (reqNum_ok_iff o "carbs_g").mp ⟨q3, h3⟩,
            (reqNum_ok_iff o "fat_g").mp ⟨q4, h4⟩⟩

/-- C2 (amended): a non-JSON upstream response, or one whose `calories`,
`protein_g`, `carbs_g` or `fat_g` is missing or non-numeric, raises a
Python exception (`json.JSONDecodeError`, `KeyError` or `ValueError` — the
code defines no `EstimationError`) before the save handler can run, so
`log_meal` is never invoked and the ledger is unchanged.  Responses
missing `meal_name` or `serving` raise nothing: those keys are read with
defaults. -/
theorem C2_malformed_estimate_never_persists (resp : Option JObj)
    (name_in today now : String) (t : Table)
    (hbad : resp = none ∨
      ∃ o, resp = some o ∧
        (isNumVal (jget o "calories") = false ∨
         isNumVal (jget o "protein_g") = false ∨
         isNumVal (jget o "carbs_g") = false ∨
         isNumVal (jget o "fat_g") = false)) :
    flowOk (addMealFlow resp name_in today now t) = false ∧
    runAddMeal resp name_in today now t = t := by
  rcases hbad with rfl | ⟨o, rfl, hbad⟩
  · exact ⟨rfl, rfl⟩
  · have hrender : ∀ u : Unit, renderAnalysis o ≠ Except.ok u := by
      intro u hok
      obtain ⟨h1, h2, h3, h4⟩ := renderAnalysis_ok_numeric o u hok
      rcases hbad with hb | hb | hb | hb <;> simp_all
    cases hr : renderAnalysis o with
    | ok u => exact absurd hr (hrender u)
    | error e =>
      constructor
      · simp [addMealFlow, vision_estimate, hr, flowOk]
      · simp [runAddMeal, addMealFlow, vision_estimate, hr]

/-- Witness for C2 at concrete malformed responses: the non-JSON response
and a JSON response missing `protein_g` both leave a fresh store
unchanged. -/
theorem C2_malformed_estimate_never_persists_witness :
    (flowOk (addMealFlow none "" "2024-01-01" "12:00" (init_db none)) = false ∧
     runAddMeal none "" "2024-01-01" "12:00" (init_db none) = init_db none) ∧
    (flowOk (addMealFlow (some c2NoProtein) "" "2024-01-01" "12:00"
        (init_db none)) = false ∧
     runAddMeal (some c2NoProtein) "" "2024-01-01" "12:00" (init_db none) =
       init_db none) :=
  ⟨C2_malformed_estimate_never_persists none "" "2024-01-01" "12:00"
     (init_db none) (Or.inl rfl),
   C2_malformed_estimate_never_persists (some c2NoProtein) "" "2024-01-01"
     "12:00" (init_db none) (Or.inr ⟨c2NoProtein, rfl, Or.inr (Or.inl rfl)⟩)⟩

/-- C2 counterexample: a JSON response with numeric macros but missing the
required keys `meal_name` and `serving` does not fail at all — the flow
completes, `log_meal` runs, and the defaults "Untitled meal" and
"1 serving" are persisted. -/
theorem C2_counterexample :
    jget c2NoNames "meal_name" = none ∧ jget c2NoNames "serving" = none ∧
    flowOk (addMealFlow (some c2NoNames) "" "2024-01-01" "12:00"
      (init_db none)) = true ∧
    (runAddMeal (some c2NoNames) "" "2024-01-01" "12:00" (init_db none)).rows.map
        (fun r => (r.meal_name, r.serving)) =
      [(some (JVal.str "Untitled meal"), some (JVal.str "1 serving"))] := by
  refine ⟨rfl, rfl, by decide, by decide⟩

/-- A stored row of an old-schema store lacking the `fiber_g` and
`sugar_g` columns. -/
def c3Row : Row :=
  { id := 1
    log_date := some (JVal.str "2024-01-01")
    meal_name := some (JVal.str "toast")
    ts := some (JVal.str "08:00")
    serving := some (JVal.str "1 slice")
    calories := some (JVal.num 100)
    protein_g := some (JVal.num 3)
    carbs_g := some (JVal.num 18)
    fat_g := some (JVal.num 2)
    fiber_g := none
    sugar_g := none }

/-- An existing store created before the `fiber_g` / `sugar_g` columns
were part of the schema, holding one row. -/
def c3Old : Table :=
  { cols := ["id", "log_date", "meal_name", "ts", "serving", "calories",
             "protein_g", "carbs_g", "fat_g"]
    rows := [c3Row] }

/-- C3 (amended): `init_db` never touches existing rows, afterwards every
expected column is in the schema, running it again changes nothing, and a
previously-absent column reads NULL (`none`) in every pre-existing row —
`ADD COLUMN` without a `DEFAULT` clause backfills NULL, not 0. -/
theorem C3_init_db_migration (t : Table) (s : Option Table) :
    (init_db (some t)).rows = t.rows ∧
    (∀ c ∈ expectedCols, c ∈ (init_db s).cols) ∧
    init_db (some (init_db s)) = init_db s ∧
    (TableWF t → ∀ c ∈ expectedCols, c ∉ t.cols →
       ∀ r ∈ (init_db (some t)).rows, rowGet r c = none) := by
  have hmem : ∀ (s' : Option Table), ∀ c ∈ expectedCols, c ∈ (init_db s').cols := by
    intro s' c hc
    cases s' with
    | none =>
      revert hc
      revert c
      decide
    | some t0 =>
      show c ∈ t0.cols ++ expectedCols.filter (fun c => ! t0.cols.contains c)
      by_cases hin : c ∈ t0.cols
      · exact List.mem_append_left _ hin
      · refine List.mem_append_right _ ?_
        rw [List.mem_filter]
        exact ⟨hc, by simp [hin]⟩
  refine ⟨rfl, hmem s, ?_, ?_⟩
  · have hfilter : expectedCols.filter
        (fun c => ! (init_db s).cols.contains c) = [] := by
      rw [List.filter_eq_nil_iff]
      intro c hc
      simp [hmem s c hc]
    have step : init_db (some (init_db s)) =
        { cols := (init_db s).cols ++
            expectedCols.filter (fun c => ! (init_db s).cols.contains c)
          rows := (init_db s).rows } := rfl
    rw [step, hfilter, List.append_nil]
  · intro hwf c hcexp hcnot r hr
    exact hwf c hcexp hcnot r hr

/-- Witness for C3 on the concrete old-schema store `c3Old`. -/
theorem C3_init_db_migration_witness :
    (init_db (some c3Old)).rows = c3Old.rows ∧
    "fiber_g" ∈ (init_db (some c3Old)).cols ∧
    init_db (some (init_db (some c3Old))) = init_db (some c3Old) ∧
    (∀ r ∈ (init_db (some c3Old)).rows, rowGet r "fiber_g" = none) :=
  have h := C3_init_db_migration c3Old (some c3Old)
  ⟨h.1, h.2.1 "fiber_g" (by decide), h.2.2.1,
   h.2.2.2 (by unfold TableWF; decide) "fiber_g" (by decide) (by decide)⟩

/-- C3 counterexample: migrating `c3Old` adds the previously-absent
`fiber_g` column but its pre-existing row still reads NULL there, not the
claimed default 0. -/
theorem C3_counterexample :
    "fiber_g" ∉ c3Old.cols ∧
    "fiber_g" ∈ (init_db (some c3Old)).cols ∧
    (init_db (some c3Old)).rows = [c3Row] ∧
    rowGet c3Row "fiber_g" = none ∧
    rowGet c3Row "fiber_g" ≠ some (JVal.num 0) := by
  decide

/-- In every reachable session state, leaving the profile view implies a
profile has been saved: navigation is only rendered once
`st.session_state.profile` is truthy, and saving a profile is the only way
out of the initial view. -/
lemma reachable_profile {s : State} (hs : Reachable s) :
    s.view ≠ "profile" → s.profile.isSome = true := by
  induction hs with
  | init => intro h; exact absurd rfl h
  | step hr hstep ih =>
    cases hstep with
    | nav v hp hv => intro _; exact hp
    | saveProfile p => intro _; rfl
    | editButton h => intro hne; exact absurd rfl hne
    | dashboardRedirect h hp => intro hne; exact absurd rfl hne
    | confirmSaveNav h =>
      intro _
      apply ih
      rw [h]
      decide

/-- C9 (amended): the controller starts with no profile in the
profile-edit view; in every reachable state a rendered protected view
implies a saved profile (so no protected view is ever rendered while the
profile is absent); and the dashboard, when dispatched without a profile,
redirects to the profile editor without rendering.  The add-meal view has
no such guard of its own (see the counterexample), it is only protected by
unreachability. -/
theorem C9_profile_guard :
    initState.profile = none ∧ initState.view = "profile" ∧
    (∀ s : State, Reachable s → (routerRender s).2 = true →
       s.profile.isSome = true) ∧
    (∀ s : State, s.view = "dashboard" → s.profile = none →
       (routerRender s).1.view = "profile" ∧ (routerRender s).2 = false) := by
  refine ⟨rfl, rfl, ?_, ?_⟩
  · intro s hs hrend
    by_cases hview : s.view = "profile"
    · exfalso
      unfold routerRender at hrend
      rw [hview] at hrend
      simp at hrend
    · exact reachable_profile hs hview
  · intro s hv hp
    unfold routerRender
    rw [hv]
    simp [hp]

/-- The profile saved in the witness scenario. -/
def p0 : Profile :=
  { sex := "Male", age := 30, wt := 70, ht := 175,
    act := "Sedentary", goal := "Maintain" }

/-- Witness for C9: the dashboard reached by saving a profile renders with
a profile present, and dispatching the dashboard with no profile redirects
to the profile editor. -/
theorem C9_profile_guard_witness :
    (({ profile := some p0, view := "dashboard" } : State).profile).isSome = true ∧
    (routerRender { profile := none, view := "dashboard" }).1.view = "profile" := by
  have h := C9_profile_guard
  constructor
  · exact h.2.2.1 { profile := some p0, view := "dashboard" }
      (Reachable.step Reachable.init (Step.saveProfile initState p0))
      (by decide)
  · exact (h.2.2.2 { profile := none, view := "dashboard" } rfl rfl).1

/-- C9 counterexample: dispatching the add-meal view while the profile is
absent renders it and does not redirect — `add_meal()` has no profile
check, so "whenever the Profile is absent and any protected view is
requested, the controller redirects to profile_edit" fails for `add`. -/
theorem C9_counterexample :
    ({ profile := none, view := "add" } : State).profile = none ∧
    ({ profile := none, view := "add" } : State).view ≠ "profile" ∧
    routerRender { profile := none, view := "add" } =
      ({ profile := none, view := "add" }, true) := by
  refine ⟨rfl, by decide, by decide⟩

end NutriSnap
